import Mathlib

/-!
# Verification of the PDF-to-images conversion service (`backend/main.py`)

Shallow embedding of the two HTTP handlers of the service:

* `POST /api/upload` (`upload_pdf`): validates the filename extension, reads
  the upload, rasterizes it through the external collaborator
  (`convert_from_bytes(pdf_content, dpi=150)`), base64-encodes the PNG
  serialization of every page, and returns a JSON payload.
* `GET /api/health` (`health_check`): a constant payload.

External collaborators (the PDF rasterizer `pdf2image.convert_from_bytes`
and the PNG serializer `PIL.Image.save`) are parameters of the model
(`Collab`); everything the Python file itself does — filename validation,
the `try`/`except` shape, page enumeration, base64 encoding of the PNG
bytes, the response dictionaries — is translated from the source.

Bytes are `Nat`s (`< 256` where it matters); fallible Python operations
return `Except String`; the uncaught `AttributeError` raised by
`file.filename.lower()` when the filename is `None` (it happens before the
`try` block) is a distinguished constructor of the response type.
-/

/-- A raster image as returned by the rasterization collaborator for one
page: pixel dimensions plus abstract pixel payload (`raw`). -/
structure Img where
  width : Nat
  height : Nat
  raw : List Nat
deriving DecidableEq, Repr

/-- One recorded invocation of the rasterization collaborator:
`convert_from_bytes(content, dpi=dpi)`. -/
structure RasterCall where
  content : List Nat
  dpi : Nat
deriving DecidableEq, Repr

/-- The external collaborators of `upload_pdf`:
`rasterize content dpi` models `pdf2image.convert_from_bytes(content, dpi=dpi)`
and `save img` models PNG serialization via `PIL.Image.save(buffer, format="PNG")`
followed by `buffer.getvalue()`. Either may raise, modelled by `Except`. -/
structure Collab where
  rasterize : List Nat → Nat → Except String (List Img)
  save : Img → Except String (List Nat)

/-- The upload as the handler sees it: `file.filename` (an `Optional[str]`
in FastAPI) and the outcome of `await file.read()`. -/
structure UploadFile where
  filename : Option String
  readResult : Except String (List Nat)

/-- One element of the `result` list built by `upload_pdf`:
`{"page": i+1, "image": "data:image/png;base64,...", "width": ..., "height": ...}`. -/
structure PageEntry where
  page : Nat
  image : String
  width : Nat
  height : Nat
deriving DecidableEq, Repr

/-- Python `str.lower()` restricted to the ASCII range, as the filename
check uses it. -/
def strLower (s : String) : String := ⟨s.data.map Char.toLower⟩

/-- Python `s.endswith(suffix)`. -/
def pyEndsWith (s suffix : String) : Bool := suffix.data.isSuffixOf s.data

/-- The standard base64 alphabet used by Python's `base64.b64encode`. -/
def b64Alphabet : List Char :=
  "ABCDEFGHIJKLMNOPQRSTUVWXYZabcdefghijklmnopqrstuvwxyz0123456789+/".data

/-- Character for a 6-bit group. -/
def b64Char (n : Nat) : Char := b64Alphabet.getD n '?'

/-- Index of a base64 character in the alphabet. -/
def b64CharIdx (c : Char) : Nat := b64Alphabet.indexOf c

/-- RFC 4648 base64 encoding of a byte list, three bytes at a time, with
`=` padding — the behaviour of Python's `base64.b64encode`. -/
def b64EncodeChunks : List Nat → List Char
  | [] => []
  | [b0] => [b64Char (b0 / 4), b64Char (b0 % 4 * 16), '=', '=']
  | [b0, b1] => [b64Char (b0 / 4), b64Char (b0 % 4 * 16 + b1 / 16), b64Char (b1 % 16 * 4), '=']
  | b0 :: b1 :: b2 :: rest =>
      b64Char (b0 / 4) :: b64Char (b0 % 4 * 16 + b1 / 16) ::
        b64Char (b1 % 16 * 4 + b2 / 64) :: b64Char (b2 % 64) :: b64EncodeChunks rest

/-- Base64 encoding as a string, as `base64.b64encode(...).decode("utf-8")`
produces it. -/
def b64Encode (l : List Nat) : String := ⟨b64EncodeChunks l⟩

/-- Base64 decoding of a character list; `none` on any malformed input
(wrong length, character outside the alphabet, misplaced padding). -/
def b64DecodeChunks : List Char → Option (List Nat)
  | [] => some []
  | c0 :: c1 :: c2 :: c3 :: rest =>
      if b64Alphabet.contains c0 && b64Alphabet.contains c1 then
        if c2 = '=' then
          if c3 = '=' && rest.isEmpty then
            some [b64CharIdx c0 * 4 + b64CharIdx c1 / 16]
          else none
        else if b64Alphabet.contains c2 then
          if c3 = '=' then
            if rest.isEmpty then
              some [b64CharIdx c0 * 4 + b64CharIdx c1 / 16,
                    b64CharIdx c1 % 16 * 16 + b64CharIdx c2 / 4]
            else none
          else if b64Alphabet.contains c3 then
            (b64DecodeChunks rest).map (fun r =>
              (b64CharIdx c0 * 4 + b64CharIdx c1 / 16) ::
                (b64CharIdx c1 % 16 * 16 + b64CharIdx c2 / 4) ::
                (b64CharIdx c2 % 4 * 64 + b64CharIdx c3) :: r)
          else none
        else none
      else none
  | _ => none

/-- `image_to_base64(image)`: serialize the image as PNG into a buffer and
base64-encode the buffer's bytes. Serialization may raise. -/
def image_to_base64 (save : Img → Except String (List Nat)) (img : Img) :
    Except String String :=
  match save img with
  | Except.error e => Except.error e
  | Except.ok png => Except.ok (b64Encode png)

/-- The data-URI prefix prepended in the f-string
`f"data:image/png;base64,{base64_image}"`. -/
def pngPrefix : String := "data:image/png;base64,"

/-- The `for i, image in enumerate(images)` loop of `upload_pdf`: builds the
`result` entries in order, page number `i + 1`, failing the whole
computation as soon as one page fails to serialize. `start` is the index of
the first image of `imgs` in the enumeration. -/
def buildEntries (save : Img → Except String (List Nat)) :
    List Img → Nat → Except String (List PageEntry)
  | [], _ => Except.ok []
  | img :: rest, start =>
      match image_to_base64 save img with
      | Except.error e => Except.error e
      | Except.ok b64 =>
          match buildEntries save rest (start + 1) with
          | Except.error e => Except.error e
          | Except.ok entries =>
              Except.ok ({ page := start + 1, image := pngPrefix ++ b64,
                           width := img.width, height := img.height } :: entries)

/-- What the `upload_pdf` handler can produce:
* `success` — the HTTP 200 `JSONResponse` carrying the `result` entries;
* `httpError s d` — a raised `HTTPException(status_code=s, detail=d)`;
* `pythonError` — an exception escaping the handler uncaught (the
  `AttributeError` from `None.lower()`, raised before the `try` block). -/
inductive UploadResponse where
  | success (entries : List PageEntry)
  | httpError (status : Nat) (detail : String)
  | pythonError (msg : String)
deriving DecidableEq, Repr

/-- Detail message for the 400 validation error: "只支持PDF文件"
("only PDF files are supported"). -/
def onlyPdfMsg : String := "只支持PDF文件"

/-- Detail prefix of the 500 error: `f"PDF处理失败: {str(e)}"`
("PDF processing failed: ..."). -/
def failPrefix : String := "PDF处理失败: "

/-- The message of the `AttributeError` raised by `None.lower()`. -/
def noneLowerMsg : String := "AttributeError: 'NoneType' object has no attribute 'lower'"

/-- The `POST /api/upload` handler, with the list of rasterizer invocations
it performed as second component. Follows `upload_pdf` in `main.py` line by
line: dereference `file.filename`, lowercase it and check the `.pdf`
suffix (before the `try` block), then inside `try`: read, rasterize at
`dpi=150`, build the entries; any `Exception` becomes
`HTTPException(500, "PDF处理失败: " + str(e))`. -/
def upload_pdf (c : Collab) (file : UploadFile) : UploadResponse × List RasterCall :=
  match file.filename with
  | none => (UploadResponse.pythonError noneLowerMsg, [])
  | some fname =>
      if ¬ pyEndsWith (strLower fname) ".pdf" then
        (UploadResponse.httpError 400 onlyPdfMsg, [])
      else
        match file.readResult with
        | Except.error e => (UploadResponse.httpError 500 (failPrefix ++ e), [])
        | Except.ok content =>
            match c.rasterize content 150 with
            | Except.error e =>
                (UploadResponse.httpError 500 (failPrefix ++ e), [⟨content, 150⟩])
            | Except.ok images =>
                match buildEntries c.save images 0 with
                | Except.error e =>
                    (UploadResponse.httpError 500 (failPrefix ++ e), [⟨content, 150⟩])
                | Except.ok entries =>
                    (UploadResponse.success entries, [⟨content, 150⟩])

/-- Minimal JSON value model for the serialized response bodies. -/
inductive Json where
  | str (s : String)
  | nat (n : Nat)
  | bool (b : Bool)
  | arr (xs : List Json)
  | obj (fields : List (String × Json))

/-- Keys of a JSON object, in order; `[]` for non-objects. -/
def Json.keys : Json → List String
  | Json.obj fs => fs.map Prod.fst
  | _ => []

/-- Field lookup in a JSON object. -/
def Json.lookupKey (j : Json) (k : String) : Option Json :=
  match j with
  | Json.obj fs => fs.lookup k
  | _ => none

/-- JSON serialization of one `result` entry, with exactly the keys the
Python dict literal has. -/
def pageEntryJson (e : PageEntry) : Json :=
  Json.obj [("page", Json.nat e.page), ("image", Json.str e.image),
            ("width", Json.nat e.width), ("height", Json.nat e.height)]

/-- JSON serialization of the success body:
`{"success": True, "total_pages": len(result), "images": result}`. -/
def successJson (entries : List PageEntry) : Json :=
  Json.obj [("success", Json.bool true),
            ("total_pages", Json.nat entries.length),
            ("images", Json.arr (entries.map pageEntryJson))]

/-- JSON body FastAPI produces for a raised `HTTPException`. -/
def errorJson (detail : String) : Json :=
  Json.obj [("detail", Json.str detail)]

/-- HTTP status and JSON body of an `UploadResponse`; `none` when the
handler produced no response of its own (uncaught exception). -/
def UploadResponse.render : UploadResponse → Option (Nat × Json)
  | UploadResponse.success entries => some (200, successJson entries)
  | UploadResponse.httpError s d => some (s, errorJson d)
  | UploadResponse.pythonError _ => none

/-- The `GET /api/health` handler: status 200 with body `{"status": "ok"}`,
a constant — it takes no input and reads and writes no state. -/
def health_check : Nat × Json := (200, Json.obj [("status", Json.str "ok")])

/-! ## Base64 codec lemmas -/

theorem b64Char_contains : ∀ n : Nat, n < 64 → b64Alphabet.contains (b64Char n) = true := by decide

theorem b64CharIdx_char : ∀ n : Nat, n < 64 → b64CharIdx (b64Char n) = n := by decide

theorem b64Char_ne_pad : ∀ n : Nat, n < 64 → ¬ (b64Char n = '=') := by decide

theorem b64_roundtrip (l : List Nat) (h : ∀ b ∈ l, b < 256) :
    b64DecodeChunks (b64EncodeChunks l) = some l := by
  induction l using b64EncodeChunks.induct with
  | case1 => rfl
  | case2 b0 =>
      have hb0 : b0 < 256 := h b0 (by simp)
      simp only [b64EncodeChunks, b64DecodeChunks]
      rw [b64Char_contains _ (by omega), b64Char_contains _ (by omega)]
      simp [b64CharIdx_char (b0 / 4) (by omega), b64CharIdx_char (b0 % 4 * 16) (by omega)]
      omega
  | case3 b0 b1 =>
      have hb0 : b0 < 256 := h b0 (by simp)
      have hb1 : b1 < 256 := h b1 (by simp)
      simp only [b64EncodeChunks, b64DecodeChunks]
      rw [b64Char_contains _ (by omega), b64Char_contains _ (by omega),
          b64Char_contains _ (by omega)]
      rw [if_neg (b64Char_ne_pad _ (by omega))]
      simp [b64CharIdx_char (b0 / 4) (by omega),
            b64CharIdx_char (b0 % 4 * 16 + b1 / 16) (by omega),
            b64CharIdx_char (b1 % 16 * 4) (by omega)]
      constructor <;> omega
  | case4 b0 b1 b2 rest ih =>
      have hb0 : b0 < 256 := h b0 (by simp)
      have hb1 : b1 < 256 := h b1 (by simp)
      have hb2 : b2 < 256 := h b2 (by simp)
      have hrest : ∀ b ∈ rest, b < 256 := fun b hb => h b (by simp [hb])
      simp only [b64EncodeChunks, b64DecodeChunks]
      rw [b64Char_contains _ (by omega), b64Char_contains _ (by omega),
          b64Char_contains _ (by omega), b64Char_contains _ (by omega)]
      rw [if_neg (b64Char_ne_pad _ (by omega)), if_neg (b64Char_ne_pad _ (by omega))]
      rw [ih hrest]
      simp [b64CharIdx_char (b0 / 4) (by omega),
            b64CharIdx_char (b0 % 4 * 16 + b1 / 16) (by omega),
            b64CharIdx_char (b1 % 16 * 4 + b2 / 64) (by omega),
            b64CharIdx_char (b2 % 64) (by omega)]
      refine ⟨by omega, by omega, by omega⟩

/-! ## Structural lemmas about the enumeration loop and the handler -/

/-- When the loop succeeds, it produced one entry per image; the `i`-th
entry has page number `start + i + 1`, the dimensions of the `i`-th image,
and the data URI built from the base64 encoding of that image's PNG
serialization. -/
theorem buildEntries_spec (save : Img → Except String (List Nat))
    (imgs : List Img) (start : Nat) (es : List PageEntry)
    (h : buildEntries save imgs start = Except.ok es) :
    es.length = imgs.length ∧
    ∀ i (hi : i < es.length) (hj : i < imgs.length),
      (es.get ⟨i, hi⟩).page = start + i + 1 ∧
      (es.get ⟨i, hi⟩).width = (imgs.get ⟨i, hj⟩).width ∧
      (es.get ⟨i, hi⟩).height = (imgs.get ⟨i, hj⟩).height ∧
      ∃ png, save (imgs.get ⟨i, hj⟩) = Except.ok png ∧
        (es.get ⟨i, hi⟩).image = pngPrefix ++ b64Encode png := by
  induction imgs generalizing start es with
  | nil =>
      simp only [buildEntries] at h
      cases h
      exact ⟨rfl, fun i hi hj => absurd hj (by simp)⟩
  | cons img rest ih =>
      simp only [buildEntries, image_to_base64] at h
      cases hsave : save img with
      | error e => rw [hsave] at h; exact absurd h (by simp)
      | ok png =>
          rw [hsave] at h
          cases hrest : buildEntries save rest (start + 1) with
          | error e => rw [hrest] at h; exact absurd h (by simp)
          | ok es' =>
              rw [hrest] at h
              obtain ⟨hlen, hspec⟩ := ih (start + 1) es' hrest
              cases h
              refine ⟨by simp [hlen], ?_⟩
              intro i hi hj
              cases i with
              | zero => exact ⟨by simp, rfl, rfl, png, hsave, rfl⟩
              | succ n =>
                  have hn : n < es'.length := by simpa using hi
                  have hn' : n < rest.length := by simpa using hj
                  obtain ⟨hp, hw, hh, png', hs, him⟩ := hspec n hn hn'
                  exact ⟨by simpa [Nat.add_assoc, Nat.add_comm, Nat.add_left_comm] using hp,
                    by simpa using hw, by simpa using hh,
                    png', by simpa using hs, by simpa using him⟩

/-- Inversion of a successful `upload_pdf` run: the filename was present
and passed validation, the read, the single rasterizer call at DPI 150 and
the entry construction all succeeded. -/
theorem upload_success_inv (c : Collab) (f : UploadFile)
    (es : List PageEntry) (tr : List RasterCall)
    (h : upload_pdf c f = (UploadResponse.success es, tr)) :
    ∃ fname content imgs,
      f.filename = some fname ∧
      pyEndsWith (strLower fname) ".pdf" = true ∧
      f.readResult = Except.ok content ∧
      c.rasterize content 150 = Except.ok imgs ∧
      buildEntries c.save imgs 0 = Except.ok es ∧
      tr = [⟨content, 150⟩] := by
  obtain ⟨fn, rr⟩ := f
  cases fn with
  | none => exact absurd h (by simp [upload_pdf])
  | some fname =>
      by_cases hv : pyEndsWith (strLower fname) ".pdf" = true
      · cases rr with
        | error e => simp [upload_pdf, hv] at h
        | ok content =>
            cases hrast : c.rasterize content 150 with
            | error e => simp [upload_pdf, hv, hrast] at h
            | ok imgs =>
                cases hbe : buildEntries c.save imgs 0 with
                | error e => simp [upload_pdf, hv, hrast, hbe] at h
                | ok es' =>
                    simp only [upload_pdf, hv, hrast, hbe, not_true_eq_false, if_false,
                      Prod.mk.injEq, UploadResponse.success.injEq] at h
                    obtain ⟨h1, h2⟩ := h
                    exact ⟨fname, content, imgs, rfl, hv, rfl, hrast, by rw [hbe, h1], h2.symm⟩
      · simp [upload_pdf, hv] at h

/-- The body of the `try` block as one fallible computation: read the
upload, rasterize it at DPI 150, build the page entries. -/
def pipeline (c : Collab) (rr : Except String (List Nat)) :
    Except String (List PageEntry) :=
  match rr with
  | Except.error e => Except.error e
  | Except.ok content =>
      match c.rasterize content 150 with
      | Except.error e => Except.error e
      | Except.ok imgs => buildEntries c.save imgs 0

/-- For a validated filename, the handler's response is determined by the
outcome of the `try` block: success on `ok`, a 500 with the error text
appended to the fixed prefix on `error`. -/
theorem upload_valid_eq (c : Collab) (fn : String) (rr : Except String (List Nat))
    (hv : pyEndsWith (strLower fn) ".pdf" = true) :
    (upload_pdf c ⟨some fn, rr⟩).fst =
      match pipeline c rr with
      | Except.error e => UploadResponse.httpError 500 (failPrefix ++ e)
      | Except.ok es => UploadResponse.success es := by
  cases rr with
  | error e => simp [upload_pdf, pipeline, hv]
  | ok content =>
      cases hrast : c.rasterize content 150 with
      | error e => simp [upload_pdf, pipeline, hv, hrast]
      | ok imgs =>
          cases hbe : buildEntries c.save imgs 0 with
          | error e => simp [upload_pdf, pipeline, hv, hrast, hbe]
          | ok es => simp [upload_pdf, pipeline, hv, hrast, hbe]

/-- If PNG serialization fails for any image of the list, the whole
enumeration loop fails. -/
theorem buildEntries_error (save : Img → Except String (List Nat))
    (imgs : List Img) (start : Nat)
    (hfail : ∃ img ∈ imgs, ∃ e, save img = Except.error e) :
    ∃ e', buildEntries save imgs start = Except.error e' := by
  induction imgs generalizing start with
  | nil => obtain ⟨img, him, _⟩ := hfail; exact absurd him (by simp)
  | cons img rest ih =>
      obtain ⟨img', him', e', hs⟩ := hfail
      cases hsave : save img with
      | error e0 => exact ⟨e0, by simp [buildEntries, image_to_base64, hsave]⟩
      | ok png =>
          rcases List.mem_cons.mp him' with heq | hmem
          · subst heq; rw [hsave] at hs; exact absurd hs (by simp)
          · obtain ⟨e1, hrest⟩ := ih (start + 1) ⟨img', hmem, e', hs⟩
            exact ⟨e1, by simp [buildEntries, image_to_base64, hsave, hrest]⟩

/-! ## Concrete fixtures used by witnesses and counterexamples -/

/-- A concrete 2×3 raster image. -/
def wImg : Img := ⟨2, 3, [9]⟩

/-- A collaborator that rasterizes any input to the single page `wImg` and
serializes every image to the two bytes `[137, 80]`. -/
def wCollab : Collab := ⟨fun _ _ => Except.ok [wImg], fun _ => Except.ok [137, 80]⟩

/-- A well-formed upload: filename `a.pdf`, content bytes `[1, 2, 3]`. -/
def wFile : UploadFile := ⟨some "a.pdf", Except.ok [1, 2, 3]⟩

/-- The entry list `upload_pdf wCollab wFile` produces
(`base64([137, 80]) = "iVA="`). -/
def wEntries : List PageEntry := [⟨1, "data:image/png;base64,iVA=", 2, 3⟩]

/-- An upload whose body read fails. -/
def wReadFailFile : UploadFile := ⟨some "a.pdf", Except.error "read failed"⟩

/-! ## The claims -/

/-- Claim C9: `GET /api/health` always returns HTTP 200 with the fixed
JSON body `{"status": "ok"}`; the handler is a constant — it takes no
input, reads and writes no state, and has no failure path. -/
theorem claim_C9_health :
    health_check = (200, Json.obj [("status", Json.str "ok")]) ∧
    health_check.fst = 200 ∧ (health_check.snd).keys = ["status"] :=
  ⟨rfl, rfl, rfl⟩

/-- Claim C10: when the upload carries no filename, `file.filename.lower()`
raises an uncaught `AttributeError` before any validation and outside the
`try` block, so the request yields neither the 400 validation response nor
the catch-all 500 response, no rasterizer call happens, and the handler
renders no response of its own. -/
theorem claim_C10_none_filename (c : Collab) (rr : Except String (List Nat)) :
    (upload_pdf c ⟨none, rr⟩).fst = UploadResponse.pythonError noneLowerMsg ∧
    (upload_pdf c ⟨none, rr⟩).snd = [] ∧
    (∀ d, (upload_pdf c ⟨none, rr⟩).fst ≠ UploadResponse.httpError 400 d) ∧
    (∀ d, (upload_pdf c ⟨none, rr⟩).fst ≠ UploadResponse.httpError 500 d) ∧
    (upload_pdf c ⟨none, rr⟩).fst.render = none := by
  refine ⟨rfl, rfl, ?_, ?_, rfl⟩ <;> intro d <;> simp [upload_pdf]

/-- Claim C2: the handler answers HTTP 400 with the "only PDF files are
supported" message exactly when the (present) filename does not end with
`.pdf` case-insensitively; `Report.PDF` passes validation and `report.txt`
is rejected with 400, regardless of the byte content and of what the
collaborators do. -/
theorem claim_C2_validation (c : Collab) (rr : Except String (List Nat)) (fname : String) :
    ((upload_pdf c ⟨some fname, rr⟩).fst = UploadResponse.httpError 400 onlyPdfMsg ↔
      ¬ pyEndsWith (strLower fname) ".pdf" = true) ∧
    (∀ d, (upload_pdf c ⟨some "Report.PDF", rr⟩).fst ≠ UploadResponse.httpError 400 d) ∧
    (upload_pdf c ⟨some "report.txt", rr⟩).fst = UploadResponse.httpError 400 onlyPdfMsg := by
  have hnot400 : ∀ (fn : String), pyEndsWith (strLower fn) ".pdf" = true →
      ∀ d, (upload_pdf c ⟨some fn, rr⟩).fst ≠ UploadResponse.httpError 400 d := by
    intro fn hv d
    rw [upload_valid_eq c fn rr hv]
    cases pipeline c rr with
    | error e => simp
    | ok es => simp
  refine ⟨⟨?_, ?_⟩, hnot400 "Report.PDF" (by decide), ?_⟩
  · intro h400
    by_cases hv : pyEndsWith (strLower fname) ".pdf" = true
    · exact absurd h400 (hnot400 fname hv onlyPdfMsg)
    · simpa using hv
  · intro hv
    simp [upload_pdf, hv]
  · simp [upload_pdf, show pyEndsWith (strLower "report.txt") ".pdf" = false by decide]

/-- Claim C3: once the filename passed validation, any failure inside the
`try` block (reading, rasterizing, or encoding a page) produces the single
generic HTTP 500 response whose detail is the fixed prefix followed by the
underlying error's text — so the detail embeds that text and is non-empty,
with no distinction between error subtypes. -/
theorem claim_C3_error_500 (c : Collab) (f : UploadFile) (fname e : String)
    (hfn : f.filename = some fname)
    (hv : pyEndsWith (strLower fname) ".pdf" = true)
    (herr : pipeline c f.readResult = Except.error e) :
    (upload_pdf c f).fst = UploadResponse.httpError 500 (failPrefix ++ e) ∧
    (∃ pre, pre ++ e.data = (failPrefix ++ e).data) ∧
    (failPrefix ++ e).data ≠ [] := by
  obtain ⟨fn, rr⟩ := f
  obtain rfl : fn = some fname := hfn
  refine ⟨?_, ⟨failPrefix.data, (String.data_append failPrefix e).symm⟩, ?_⟩
  · rw [upload_valid_eq c fname rr hv]
    simp only at herr
    rw [herr]
  · rw [String.data_append]
    simp [failPrefix]

/-- Witness for C3: a concrete run whose read fails. -/
theorem claim_C3_error_500_witness :
    (upload_pdf wCollab wReadFailFile).fst =
      UploadResponse.httpError 500 (failPrefix ++ "read failed") ∧
    (∃ pre, pre ++ "read failed".data = (failPrefix ++ "read failed").data) ∧
    (failPrefix ++ "read failed").data ≠ [] :=
  claim_C3_error_500 wCollab wReadFailFile "a.pdf" "read failed" rfl (by decide) rfl

/-- Counterexample to C7 as stated: this request passes filename
validation, yet the rasterization collaborator is never invoked, because
reading the upload body fails before `convert_from_bytes` is reached. -/
theorem claim_C7_counterexample :
    wReadFailFile.filename = some "a.pdf" ∧
    pyEndsWith (strLower "a.pdf") ".pdf" = true ∧
    ¬ ∃ call : RasterCall, (upload_pdf wCollab wReadFailFile).snd = [call] := by
  refine ⟨rfl, by decide, ?_⟩
  rintro ⟨call, hc⟩
  simp [upload_pdf, wCollab, wReadFailFile,
    show pyEndsWith (strLower "a.pdf") ".pdf" = true by decide] at hc

/-- Claim C7 (amended): for every request that passes filename validation
and whose body read succeeds, the rasterization collaborator is invoked
exactly once, with the complete uploaded byte content and a fixed DPI of
150 and nothing else. -/
theorem claim_C7_raster_once (c : Collab) (f : UploadFile) (fname : String)
    (content : List Nat)
    (hfn : f.filename = some fname)
    (hv : pyEndsWith (strLower fname) ".pdf" = true)
    (hread : f.readResult = Except.ok content) :
    (upload_pdf c f).snd = [⟨content, 150⟩] := by
  obtain ⟨fn, rr⟩ := f
  obtain rfl : fn = some fname := hfn
  obtain rfl : rr = Except.ok content := hread
  cases hrast : c.rasterize content 150 with
  | error e => simp [upload_pdf, hv, hrast]
  | ok imgs =>
      cases hbe : buildEntries c.save imgs 0 with
      | error e => simp [upload_pdf, hv, hrast, hbe]
      | ok es => simp [upload_pdf, hv, hrast, hbe]

/-- Witness for the amended C7: a concrete successful run performs the one
call `convert_from_bytes([1, 2, 3], dpi=150)`. -/
theorem claim_C7_raster_once_witness :
    (upload_pdf wCollab wFile).snd = [⟨[1, 2, 3], 150⟩] :=
  claim_C7_raster_once wCollab wFile "a.pdf" [1, 2, 3] rfl (by decide) rfl

/-- Claim C8: no partial success — if rasterization raises, or PNG
serialization of any rasterized page fails, the whole request answers the
generic 500 error, whose rendered body consists of the single `detail`
field and carries no page data for any page; the response is not a success
for any entry list. -/
theorem claim_C8_no_partial (c : Collab) (f : UploadFile) (fname : String)
    (content : List Nat)
    (hfn : f.filename = some fname)
    (hv : pyEndsWith (strLower fname) ".pdf" = true)
    (hread : f.readResult = Except.ok content)
    (hfail : (∃ e, c.rasterize content 150 = Except.error e) ∨
      (∃ imgs, c.rasterize content 150 = Except.ok imgs ∧
        ∃ img ∈ imgs, ∃ e, c.save img = Except.error e)) :
    ∃ d, (upload_pdf c f).fst = UploadResponse.httpError 500 d ∧
      (upload_pdf c f).fst.render = some (500, errorJson d) ∧
      (errorJson d).keys = ["detail"] ∧
      ∀ es, (upload_pdf c f).fst ≠ UploadResponse.success es := by
  obtain ⟨fn, rr⟩ := f
  obtain rfl : fn = some fname := hfn
  obtain rfl : rr = Except.ok content := hread
  rcases hfail with ⟨e, hrast⟩ | ⟨imgs, hrast, hsavefail⟩
  · refine ⟨failPrefix ++ e, ?_, ?_, rfl, ?_⟩
    · simp [upload_pdf, hv, hrast]
    · simp [upload_pdf, hv, hrast, UploadResponse.render]
    · intro es
      simp [upload_pdf, hv, hrast]
  · obtain ⟨e', hbe⟩ := buildEntries_error c.save imgs 0 hsavefail
    refine ⟨failPrefix ++ e', ?_, ?_, rfl, ?_⟩
    · simp [upload_pdf, hv, hrast, hbe]
    · simp [upload_pdf, hv, hrast, hbe, UploadResponse.render]
    · intro es
      simp [upload_pdf, hv, hrast, hbe]

/-- A collaborator whose rasterization always fails. -/
def wRastFailCollab : Collab :=
  ⟨fun _ _ => Except.error "rasterize boom", fun _ => Except.ok []⟩

/-- Witness for C8: a concrete run whose rasterization fails. -/
theorem claim_C8_no_partial_witness :
    ∃ d, (upload_pdf wRastFailCollab wFile).fst = UploadResponse.httpError 500 d ∧
      (upload_pdf wRastFailCollab wFile).fst.render = some (500, errorJson d) ∧
      (errorJson d).keys = ["detail"] ∧
      ∀ es, (upload_pdf wRastFailCollab wFile).fst ≠ UploadResponse.success es :=
  claim_C8_no_partial wRastFailCollab wFile "a.pdf" [1, 2, 3] rfl (by decide)
    rfl (Or.inl ⟨"rasterize boom", rfl⟩)

/-- Claim C1: in every successful response, the `total_pages` field equals
the length of the `images` array, page indices are contiguous and 1-based
(`images[i].page = i + 1`), and there is one entry per image in the order
the rasterization collaborator returned them. -/
theorem claim_C1_pages (c : Collab) (f : UploadFile) (es : List PageEntry)
    (tr : List RasterCall) (content : List Nat) (imgs : List Img)
    (h : upload_pdf c f = (UploadResponse.success es, tr))
    (hread : f.readResult = Except.ok content)
    (hrast : c.rasterize content 150 = Except.ok imgs) :
    (∃ arr, (successJson es).lookupKey "images" = some (Json.arr arr) ∧
      (successJson es).lookupKey "total_pages" = some (Json.nat arr.length)) ∧
    (∀ i (hi : i < es.length), (es.get ⟨i, hi⟩).page = i + 1) ∧
    es.length = imgs.length := by
  obtain ⟨fname, content', imgs', hfn, hv, hread', hrast', hbe, htr⟩ :=
    upload_success_inv c f es tr h
  rw [hread] at hread'
  obtain rfl : content = content' := by
    injection hread'
  rw [hrast] at hrast'
  obtain rfl : imgs = imgs' := by
    injection hrast'
  obtain ⟨hlen, hspec⟩ := buildEntries_spec c.save imgs 0 es hbe
  refine ⟨⟨es.map pageEntryJson, ?_, ?_⟩, ?_, hlen⟩
  · simp [successJson, Json.lookupKey, List.lookup]
  · simp [successJson, Json.lookupKey, List.lookup]
  · intro i hi
    have := (hspec i hi (by omega)).1
    simpa using this

/-- Witness for C1: the concrete one-page run. -/
theorem claim_C1_pages_witness :
    (∃ arr, (successJson wEntries).lookupKey "images" = some (Json.arr arr) ∧
      (successJson wEntries).lookupKey "total_pages" = some (Json.nat arr.length)) ∧
    (∀ i (hi : i < wEntries.length), (wEntries.get ⟨i, hi⟩).page = i + 1) ∧
    wEntries.length = [wImg].length :=
  claim_C1_pages wCollab wFile wEntries [⟨[1, 2, 3], 150⟩] [1, 2, 3] [wImg]
    rfl rfl rfl

/-- Claim C4: every `image` field of a successful response is the literal
prefix `data:image/png;base64,` followed by the base64 encoding of the PNG
serialization of that page's raster image; stripping the 22-character
prefix and base64-decoding the rest returns exactly those PNG bytes. -/
theorem claim_C4_data_uri (c : Collab) (f : UploadFile) (es : List PageEntry)
    (tr : List RasterCall) (content : List Nat) (imgs : List Img)
    (h : upload_pdf c f = (UploadResponse.success es, tr))
    (hread : f.readResult = Except.ok content)
    (hrast : c.rasterize content 150 = Except.ok imgs) :
    ∀ i (hi : i < es.length) (hj : i < imgs.length),
      ∃ png, c.save (imgs.get ⟨i, hj⟩) = Except.ok png ∧
        (es.get ⟨i, hi⟩).image = pngPrefix ++ b64Encode png ∧
        ((∀ b ∈ png, b < 256) →
          b64DecodeChunks (((es.get ⟨i, hi⟩).image).data.drop 22) = some png) := by
  obtain ⟨fname, content', imgs', hfn, hv, hread', hrast', hbe, htr⟩ :=
    upload_success_inv c f es tr h
  rw [hread] at hread'
  obtain rfl : content = content' := by
    injection hread'
  rw [hrast] at hrast'
  obtain rfl : imgs = imgs' := by
    injection hrast'
  obtain ⟨hlen, hspec⟩ := buildEntries_spec c.save imgs 0 es hbe
  intro i hi hj
  obtain ⟨hp, hw, hh, png, hsave, him⟩ := hspec i hi hj
  refine ⟨png, hsave, him, ?_⟩
  intro h256
  rw [him, String.data_append,
    List.drop_left' (show pngPrefix.data.length = 22 from rfl)]
  exact b64_roundtrip png h256

/-- Witness for C4: the concrete one-page run
(`base64([137, 80]) = "iVA="`). -/
theorem claim_C4_data_uri_witness :
    ∃ png, wCollab.save ([wImg].get ⟨0, by decide⟩) = Except.ok png ∧
      (wEntries.get ⟨0, by decide⟩).image = pngPrefix ++ b64Encode png ∧
      ((∀ b ∈ png, b < 256) →
        b64DecodeChunks (((wEntries.get ⟨0, by decide⟩).image).data.drop 22) = some png) :=
  claim_C4_data_uri wCollab wFile wEntries [⟨[1, 2, 3], 150⟩] [1, 2, 3] [wImg]
    rfl rfl rfl 0 (by decide) (by decide)

/-- Claim C5: in every successful response, each entry's `width` and
`height` fields equal the pixel dimensions of the raster image the
rasterization collaborator produced for that page. -/
theorem claim_C5_dimensions (c : Collab) (f : UploadFile) (es : List PageEntry)
    (tr : List RasterCall) (content : List Nat) (imgs : List Img)
    (h : upload_pdf c f = (UploadResponse.success es, tr))
    (hread : f.readResult = Except.ok content)
    (hrast : c.rasterize content 150 = Except.ok imgs) :
    ∀ i (hi : i < es.length) (hj : i < imgs.length),
      (es.get ⟨i, hi⟩).width = (imgs.get ⟨i, hj⟩).width ∧
      (es.get ⟨i, hi⟩).height = (imgs.get ⟨i, hj⟩).height := by
  obtain ⟨fname, content', imgs', hfn, hv, hread', hrast', hbe, htr⟩ :=
    upload_success_inv c f es tr h
  rw [hread] at hread'
  obtain rfl : content = content' := by
    injection hread'
  rw [hrast] at hrast'
  obtain rfl : imgs = imgs' := by
    injection hrast'
  obtain ⟨hlen, hspec⟩ := buildEntries_spec c.save imgs 0 es hbe
  intro i hi hj
  exact ⟨(hspec i hi hj).2.1, (hspec i hi hj).2.2.1⟩

/-- Witness for C5: the concrete one-page run (dimensions 2×3). -/
theorem claim_C5_dimensions_witness :
    (wEntries.get ⟨0, by decide⟩).width = ([wImg].get ⟨0, by decide⟩).width ∧
    (wEntries.get ⟨0, by decide⟩).height = ([wImg].get ⟨0, by decide⟩).height :=
  claim_C5_dimensions wCollab wFile wEntries [⟨[1, 2, 3], 150⟩] [1, 2, 3] [wImg]
    rfl rfl rfl 0 (by decide) (by decide)

/-- Claim C6: every successful response is HTTP 200 and its JSON body has
exactly the fields `success` (equal to `true`), `total_pages` and `images`,
and every element of `images` has exactly the fields `page`, `image`,
`width` and `height`. -/
theorem claim_C6_response_shape (c : Collab) (f : UploadFile)
    (es : List PageEntry) (tr : List RasterCall)
    (h : upload_pdf c f = (UploadResponse.success es, tr)) :
    (upload_pdf c f).fst.render = some (200, successJson es) ∧
    (successJson es).keys = ["success", "total_pages", "images"] ∧
    (successJson es).lookupKey "success" = some (Json.bool true) ∧
    (∃ arr, (successJson es).lookupKey "images" = some (Json.arr arr) ∧
      ∀ j ∈ arr, j.keys = ["page", "image", "width", "height"]) := by
  refine ⟨?_, rfl, ?_, es.map pageEntryJson, ?_, ?_⟩
  · rw [h]
    rfl
  · simp [successJson, Json.lookupKey, List.lookup]
  · simp [successJson, Json.lookupKey, List.lookup]
  · intro j hj
    obtain ⟨e, _, rfl⟩ := List.mem_map.mp hj
    rfl

/-- Witness for C6: the concrete one-page run. -/
theorem claim_C6_response_shape_witness :
    (upload_pdf wCollab wFile).fst.render = some (200, successJson wEntries) ∧
    (successJson wEntries).keys = ["success", "total_pages", "images"] ∧
    (successJson wEntries).lookupKey "success" = some (Json.bool true) ∧
    (∃ arr, (successJson wEntries).lookupKey "images" = some (Json.arr arr) ∧
      ∀ j ∈ arr, j.keys = ["page", "image", "width", "height"]) :=
  claim_C6_response_shape wCollab wFile wEntries [⟨[1, 2, 3], 150⟩] rfl
